import Mathlib

/-!
Shallow embedding of the webhook-driven integration bridge
(`src/app.js`, `src/functions/webhooks.js`, `src/functions/database.js`).

Conventions of the embedding:
* JavaScript scalar field values are modelled by `Val` (null / number / string),
  with JavaScript truthiness and the `a || b` defaulting operator.
* Presence of an object-valued key is modelled by `Option`: `none` means the key
  is absent (or carries a falsy value), `some` means a truthy value is present.
* Promise rejection / a thrown exception is modelled by `Except.error`;
  a resolved / returned value by `Except.ok`.
* The external network and the PostgreSQL server are oracles: a handler or
  database routine takes the outcome of each external call as a parameter
  (for record writes, a `Nat → Option String` oracle giving the error of the
  i-th write, `none` for success).
-/

namespace NodeWebhooks

/-- A JavaScript scalar value as it appears in a record field. -/
inductive Val where
  | null
  | num (n : Int)
  | str (s : String)
  deriving Repr, DecidableEq

/-- JavaScript truthiness restricted to `Val`: `null`, `0` and `""` are falsy. -/
def Val.truthy : Val → Bool
  | .null => false
  | .num n => n != 0
  | .str s => s != ""

/-- JavaScript `a || b` on `Val`. -/
def Val.orDefault (a b : Val) : Val :=
  if a.truthy then a else b

/-- JavaScript `s || ''` for a possibly-absent string property. -/
def strOrEmpty : Option String → String
  | none => ""
  | some s => s

/-- A cookie object: named cookie values. Carried opaquely by the extraction
logic (webhooks.js only reads individual cookie names when building headers). -/
def Cookies := List (String × String)

instance : DecidableEq Cookies := by
  unfold Cookies
  infer_instance

/-- The inner `response` object of an authentication envelope. -/
structure AuthInner where
  cookies : Option Cookies
  xsrf : Option String
  deriving DecidableEq

/-- An authentication response as the handlers inspect it: each key may be
absent. `{raw: text}` bodies are modelled by all three keys absent. -/
structure AuthResponse where
  response : Option AuthInner
  cookies : Option Cookies
  xsrf : Option String
  deriving DecidableEq

/-- Session extraction of `handleGetFacilitySignups` (webhooks.js lines 103-112).
The flat-envelope branch evaluates `externalResponse.response.xsrf`; when the
`response` key is absent this is a property read on `undefined`, a thrown
`TypeError`, modelled as `Except.error`. -/
def extractSessionFacility (r : AuthResponse) : Except String (Cookies × String) :=
  match r.response with
  | some inner =>
    match inner.cookies with
    | some c => Except.ok (c, strOrEmpty inner.xsrf)
    | none =>
      match r.cookies with
      | some c => Except.ok (c, strOrEmpty inner.xsrf)
      | none => Except.ok ([], "")
  | none =>
    match r.cookies with
    | some _ =>
        Except.error "Cannot read properties of undefined (reading 'xsrf')"
    | none => Except.ok ([], "")

/-- Session extraction of `handleGetElearningCodes` (webhooks.js lines 265-274).
The flat-envelope branch reads `externalResponse.xsrf`, so no property read on
`undefined` can occur: extraction always succeeds. -/
def extractSessionElearning (r : AuthResponse) : Except String (Cookies × String) :=
  match r.response with
  | some inner =>
    match inner.cookies with
    | some c => Except.ok (c, strOrEmpty inner.xsrf)
    | none =>
      match r.cookies with
      | some c => Except.ok (c, strOrEmpty r.xsrf)
      | none => Except.ok ([], "")
  | none =>
    match r.cookies with
    | some c => Except.ok (c, strOrEmpty r.xsrf)
    | none => Except.ok ([], "")

/-- The nested envelope `{response: {cookies, xsrf}}` carrying `c` and `x`. -/
def nestedEnvelope (c : Cookies) (x : String) : AuthResponse :=
  { response := some { cookies := some c, xsrf := some x },
    cookies := none, xsrf := none }

/-- The flat envelope `{cookies, xsrf}` carrying `c` and `x`. -/
def flatEnvelope (c : Cookies) (x : String) : AuthResponse :=
  { response := none, cookies := some c, xsrf := some x }

/-- The object returned by a successful upsert routine
(`{success, message, count}`). -/
structure DbResult where
  success : Bool
  message : String
  count : Nat
  deriving Repr, DecidableEq

/-- Observable events of one upsert routine run: connection acquisition,
`BEGIN`, the parameterized insert for record `i`, the two
`SET session_replication_role` statements, `COMMIT`, `ROLLBACK`, release. -/
inductive Ev where
  | acquire
  | beginTx
  | write (i : Nat)
  | setReplica
  | setDefault
  | commit
  | rollback
  | release
  deriving Repr, DecidableEq

/-- One row/record of `get_facility_signups` (the 35 columns of the insert
statement in database.js lines 31-79, in source order). -/
structure SignupRecord where
  user_id : Val
  id : Val
  facility_id : Val
  user_uuid : Val
  username : Val
  name : Val
  email : Val
  email_verified_at : Val
  password : Val
  remember_token : Val
  created_at : Val
  updated_at : Val
  created_user_id : Val
  updated_user_id : Val
  instance_id : Val
  prefix_id : Val
  first_name : Val
  middle_name : Val
  last_name : Val
  suffix_id : Val
  gender : Val
  member_number : Val
  region_id : Val
  login_count : Val
  login_stamp : Val
  status_id : Val
  user_level_id : Val
  admin_level_id : Val
  dob : Val
  meta_data : Val
  external_ids : Val
  biometric_key : Val
  biometric_expiration : Val
  reward_program : Val
  member_added_date : Val
  deriving Repr, DecidableEq

/-- The values array built for one user (database.js lines 88-101): the
defaulting of each field before the parameterized insert. -/
def normalizeSignup (u : SignupRecord) : SignupRecord where
  user_id := u.user_id
  id := u.id
  facility_id := u.facility_id
  user_uuid := u.user_uuid
  username := u.username
  name := u.name
  email := u.email
  email_verified_at := u.email_verified_at
  password := u.password
  remember_token := u.remember_token
  created_at := u.created_at
  updated_at := u.updated_at.orDefault u.created_at
  created_user_id := u.created_user_id.orDefault (.num 0)
  updated_user_id := u.updated_user_id.orDefault (.num 0)
  instance_id := u.instance_id.orDefault (.num 0)
  prefix_id := u.prefix_id.orDefault (.num 0)
  first_name := u.first_name
  middle_name := u.middle_name
  last_name := u.last_name
  suffix_id := u.suffix_id.orDefault (.num 0)
  gender := u.gender.orDefault (.num 0)
  member_number := u.member_number.orDefault (.num 0)
  region_id := u.region_id.orDefault (.num 0)
  login_count := u.login_count.orDefault (.num 0)
  login_stamp := u.login_stamp.orDefault u.created_at
  status_id := u.status_id.orDefault (.num 1)
  user_level_id := u.user_level_id.orDefault (.num 1)
  admin_level_id := u.admin_level_id.orDefault (.num 1)
  dob := u.dob
  meta_data := u.meta_data
  external_ids := u.external_ids
  biometric_key := u.biometric_key
  biometric_expiration := u.biometric_expiration
  reward_program := u.reward_program
  member_added_date := u.member_added_date

/-- `ON CONFLICT (user_id) DO UPDATE SET ...` (database.js lines 45-78): the
update list names every column except the key `user_id` and except
`created_at`, so a conflicting row keeps those two columns of the stored row
and takes everything else from the excluded (new) row. -/
def applySignupUpdate (old new : SignupRecord) : SignupRecord :=
  { new with user_id := old.user_id, created_at := old.created_at }

/-- Effect of one parameterized signup insert on the table. -/
def signupTableUpsert (t : List SignupRecord) (r : SignupRecord) :
    List SignupRecord :=
  if t.any (fun row => row.user_id == r.user_id) then
    t.map (fun row =>
      if row.user_id == r.user_id then applySignupUpdate row r else row)
  else
    t ++ [r]

/-- The shared per-record insert loop of the three upsert routines: each
iteration issues one parameterized insert whose table effect is `step`; the
oracle gives the error with which the i-th insert fails (`none` = success).
A failing insert aborts the loop (the `await` rethrows). Returns the
resulting in-transaction table (or the first error) together with the
attempted-write events. -/
def insertLoop {Row Rec : Type} (step : List Row → Rec → List Row)
    (t : List Row) (rs : List Rec) (i : Nat)
    (oracle : Nat → Option String) :
    Except String (List Row) × List Ev :=
  match rs with
  | [] => (Except.ok t, [])
  | r :: rest =>
    match oracle i with
    | some e => (Except.error e, [Ev.write i])
    | none =>
      let out := insertLoop step (step t r) rest (i + 1) oracle
      (out.1, Ev.write i :: out.2)

/-- The per-record loop of `insertFacilitySignups` (database.js lines 82-107):
each iteration normalizes the user record and issues one insert. -/
def signupLoop (t : List SignupRecord) (users : List SignupRecord) (i : Nat)
    (oracle : Nat → Option String) :
    Except String (List SignupRecord) × List Ev :=
  insertLoop (fun a u => signupTableUpsert a (normalizeSignup u)) t users i
    oracle

/-- Outcome of one upsert-routine run over rows of type `Row`: the returned
value or thrown error, the committed table afterwards, and the event trace. -/
structure RunResult (Row : Type) where
  result : Except String DbResult
  table : List Row
  events : List Ev

/-- `insertFacilitySignups` (database.js lines 19-126): acquire a connection,
`BEGIN`, insert every user, `COMMIT` and return `{success, message, count}`;
on any insert failure `ROLLBACK` (discarding the whole batch) and rethrow;
release the connection on both paths (`finally`). -/
def insertFacilitySignups (t : List SignupRecord) (users : List SignupRecord)
    (oracle : Nat → Option String) : RunResult SignupRecord :=
  let r := signupLoop t users 0 oracle
  match r.1 with
  | Except.ok t2 =>
    { result := Except.ok
        { success := true
          message := "Inserted/Updated " ++ toString users.length ++ " users"
          count := users.length }
      table := t2
      events := [Ev.acquire, Ev.beginTx] ++ r.2 ++ [Ev.commit, Ev.release] }
  | Except.error e =>
    { result := Except.error e
      table := t
      events := [Ev.acquire, Ev.beginTx] ++ r.2 ++ [Ev.rollback, Ev.release] }

/-- One row of `course_info` (database.js lines 140-147). -/
structure CourseRec where
  course_id : Val
  agency : Val
  agency_id : Val
  label : Val
  deriving Repr, DecidableEq

/-- `ON CONFLICT (course_id) DO UPDATE SET agency, agency_id, label`: every
non-key column is overwritten, and the key is equal on conflict, so the stored
row becomes the new row. -/
def courseTableUpsert (t : List CourseRec) (r : CourseRec) : List CourseRec :=
  if t.any (fun row => row.course_id == r.course_id) then
    t.map (fun row => if row.course_id == r.course_id then r else row)
  else
    t ++ [r]

/-- The nested agency/course loop of `insertCourseInfo` (database.js lines
152-164) iterates `Object.entries(courses)` and inserts each course of each
agency in order; the agency name of the outer entry is not used in the values.
We flatten the iteration and index writes sequentially. -/
def courseLoop (t : List CourseRec) (cs : List CourseRec) (i : Nat)
    (oracle : Nat → Option String) :
    Except String (List CourseRec) × List Ev :=
  insertLoop courseTableUpsert t cs i oracle

/-- `insertCourseInfo` (database.js lines 133-180): same transaction pattern
as `insertFacilitySignups`; `totalCourses` counts every inserted course across
all agencies. -/
def insertCourseInfo (t : List CourseRec)
    (courses : List (String × List CourseRec))
    (oracle : Nat → Option String) : RunResult CourseRec :=
  let flat := (courses.map Prod.snd).flatten
  let r := courseLoop t flat 0 oracle
  match r.1 with
  | Except.ok t2 =>
    { result := Except.ok
        { success := true
          message := "Inserted/Updated " ++ toString flat.length ++ " courses"
          count := flat.length }
      table := t2
      events := [Ev.acquire, Ev.beginTx] ++ r.2 ++ [Ev.commit, Ev.release] }
  | Except.error e =>
    { result := Except.error e
      table := t
      events := [Ev.acquire, Ev.beginTx] ++ r.2 ++ [Ev.rollback, Ev.release] }

/-- Value of the PostgreSQL setting `session_replication_role` on one pooled
connection: `origin` is the default (referential integrity enforced),
`replica` suspends trigger/foreign-key enforcement. -/
inductive Role where
  | origin
  | replica
  deriving Repr, DecidableEq

/-- One row of `get_elearning_codes` (the 28 columns of the insert statement
in database.js lines 203-240, in source order). -/
structure CodeRecord where
  id : Val
  user_id : Val
  course_id : Val
  user_name : Val
  first_name : Val
  middle_name : Val
  last_name : Val
  dob : Val
  email : Val
  facility_id : Val
  facility_name : Val
  facility_number : Val
  office_id : Val
  agency_id : Val
  agency : Val
  course_name : Val
  course_meta : Val
  moodle_id : Val
  instance_id : Val
  prefix_id : Val
  suffix_id : Val
  status_id : Val
  status_label : Val
  signup_code : Val
  signup_date : Val
  help_date : Val
  created_at : Val
  updated_at : Val
  deriving Repr, DecidableEq

/-- The values array built for one e-learning code (database.js lines
249-278). `now` is the value of `new Date().toISOString()` at the call. -/
def normalizeCode (now : String) (c : CodeRecord) : CodeRecord where
  id := c.id.orDefault (.num 0)
  user_id := c.user_id.orDefault (.num 0)
  course_id := c.course_id.orDefault (.num 0)
  user_name := c.user_name.orDefault (.str "")
  first_name := c.first_name.orDefault (.str "")
  middle_name := c.middle_name.orDefault (.str "")
  last_name := c.last_name.orDefault (.str "")
  dob := c.dob.orDefault .null
  email := c.email.orDefault (.str "")
  facility_id := c.facility_id.orDefault (.num 0)
  facility_name := c.facility_name.orDefault (.str "")
  facility_number := c.facility_number.orDefault (.num 0)
  office_id := c.office_id.orDefault (.num 0)
  agency_id := c.agency_id.orDefault (.num 0)
  agency := c.agency.orDefault (.str "")
  course_name := c.course_name.orDefault (.str "")
  course_meta := c.course_meta.orDefault .null
  moodle_id := c.moodle_id.orDefault (.num 0)
  instance_id := c.instance_id.orDefault (.num 0)
  prefix_id := c.prefix_id.orDefault (.num 0)
  suffix_id := c.suffix_id.orDefault (.num 0)
  status_id := c.status_id.orDefault (.num 0)
  status_label := c.status_label.orDefault (.str "")
  signup_code := c.signup_code.orDefault (.str "")
  signup_date := c.signup_date.orDefault .null
  help_date := c.help_date.orDefault .null
  created_at := c.created_at.orDefault (.str now)
  updated_at := c.updated_at.orDefault (.str now)

/-- `ON CONFLICT (id) DO UPDATE SET ...` (database.js lines 213-239): the
update list names every column except the key `id` and except `created_at`. -/
def applyCodeUpdate (old new : CodeRecord) : CodeRecord :=
  { new with id := old.id, created_at := old.created_at }

/-- Effect of one parameterized e-learning-code insert on the table. -/
def codeTableUpsert (t : List CodeRecord) (r : CodeRecord) : List CodeRecord :=
  if t.any (fun row => row.id == r.id) then
    t.map (fun row => if row.id == r.id then applyCodeUpdate row r else row)
  else
    t ++ [r]

/-- The per-record loop of `insertElearningCodes` (database.js lines
243-284). -/
def codeLoop (t : List CodeRecord) (codes : List CodeRecord) (i : Nat)
    (now : String) (oracle : Nat → Option String) :
    Except String (List CodeRecord) × List Ev :=
  insertLoop (fun a c => codeTableUpsert a (normalizeCode now c)) t codes i
    oracle

/-- Outcome of one `insertElearningCodes` run: the returned value or thrown
error, the committed table, the `session_replication_role` of the pooled
connection when it is released, and the event trace. -/
structure ElearnRun where
  result : Except String DbResult
  table : List CodeRecord
  role : Role
  events : List Ev

/-- `insertElearningCodes` (database.js lines 187-307): acquire a connection
(whose `session_replication_role` is `role0`), `BEGIN`, issue
`SET session_replication_role = replica`, insert every code, issue
`SET session_replication_role = DEFAULT`, `COMMIT`; on any insert failure
`ROLLBACK` and rethrow; release the connection on both paths (`finally`).

The released connection's role follows PostgreSQL `SET` semantics: a
non-`LOCAL` `SET` issued inside a transaction that is later rolled back has
its effect reverted by the rollback, so the failure path releases the
connection with its role restored to `role0`; the success path releases it
with the default role `origin` (set by the second `SET`, kept by `COMMIT`). -/
def insertElearningCodes (role0 : Role) (t : List CodeRecord)
    (codes : List CodeRecord) (now : String)
    (oracle : Nat → Option String) : ElearnRun :=
  let r := codeLoop t codes 0 now oracle
  match r.1 with
  | Except.ok t2 =>
    { result := Except.ok
        { success := true
          message := "Inserted/Updated " ++ toString codes.length ++
            " e-learning codes"
          count := codes.length }
      table := t2
      role := Role.origin
      events := [Ev.acquire, Ev.beginTx, Ev.setReplica] ++ r.2 ++
        [Ev.setDefault, Ev.commit, Ev.release] }
  | Except.error e =>
    { result := Except.error e
      table := t
      role := role0
      events := [Ev.acquire, Ev.beginTx, Ev.setReplica] ++ r.2 ++
        [Ev.rollback, Ev.release] }

/-- The process environment as the handlers read it: each of the three
required settings may be absent. -/
structure Env where
  FACILITY_ID : Option String
  EXTERNAL_WEBHOOK_URL : Option String
  DATABASE_URL : Option String

/-- JavaScript truthiness of `process.env.X`: an unset variable is
`undefined` (falsy) and an empty string is falsy. -/
def envTruthy : Option String → Bool
  | none => false
  | some s => s != ""

/-- The facility-signups fetch payload as the handler inspects it:
`some` for `data` models a key present with a truthy array value
(`facilitySignupsResponse.data && Array.isArray(...)`), `some` for `courses`
models a key present with a truthy object value; `none` models an absent key,
a non-array/non-object value, or a `{raw: text}` body. -/
structure FacilityPayload where
  data : Option (List SignupRecord)
  courses : Option (List (String × List CourseRec))

/-- The `database` object assembled by `handleGetFacilitySignups`
(webhooks.js lines 128-162): `dbResults.users`, `dbResults.courses` and
`dbResults.error` are each set on some paths and absent on others. -/
structure FacilityDbMap where
  users : Option DbResult
  courses : Option DbResult
  error : Option String
  deriving Repr, DecidableEq

/-- The JSON body sent by `handleGetFacilitySignups`: either the 200 payload
`{status: "success", response, database}` or the 500 payload
`{status: "error", error}`. -/
inductive FacilityBody where
  | success (response : FacilityPayload) (database : FacilityDbMap)
  | failure (error : String)

/-- An HTTP response of a handler: status code and JSON body. -/
structure HttpResponse (Body : Type) where
  status : Nat
  body : Body

/-- The two relational tables touched by the facility-signups handler. -/
structure Db where
  signups : List SignupRecord
  courses : List CourseRec

/-- `handleGetFacilitySignups` (webhooks.js lines 72-178), with the outcomes
of the two outbound HTTPS calls supplied as oracles (`authOutcome` for
`makeExternalRequest`, `fetchOutcome` for `makeFacilitySignupsRequest`;
`Except.error` models a rejected promise) and the database per-write oracles
as in the routines above. Returns the HTTP response, the number of outbound
HTTPS calls issued, and the database afterwards.

Control flow of the source: three environment checks that throw before any
outbound call; the auth call; session extraction (whose `TypeError` on a flat
envelope propagates to the outer catch); the resource call; then the
persistence phase whose errors are caught and recorded in `dbResults.error`
(never rethrown); finally status 200 with the payload and `dbResults`.
Any error before the persistence phase reaches the outer catch: status 500
with `{status: "error", error: message}`. -/
def handleGetFacilitySignups (env : Env)
    (authOutcome : Except String AuthResponse)
    (fetchOutcome : Except String FacilityPayload) (db : Db)
    (userOracle courseOracle : Nat → Option String) :
    HttpResponse FacilityBody × Nat × Db :=
  if !(envTruthy env.FACILITY_ID) then
    (⟨500, .failure "FACILITY_ID environment variable is not set"⟩, 0, db)
  else if !(envTruthy env.EXTERNAL_WEBHOOK_URL) then
    (⟨500, .failure "EXTERNAL_WEBHOOK_URL environment variable is not set"⟩,
      0, db)
  else if !(envTruthy env.DATABASE_URL) then
    (⟨500, .failure "DATABASE_URL environment variable is not set"⟩, 0, db)
  else
    match authOutcome with
    | Except.error e => (⟨500, .failure e⟩, 1, db)
    | Except.ok auth =>
      match extractSessionFacility auth with
      | Except.error e => (⟨500, .failure e⟩, 1, db)
      | Except.ok _session =>
        match fetchOutcome with
        | Except.error e => (⟨500, .failure e⟩, 2, db)
        | Except.ok payload =>
          match payload.data with
          | some users =>
            let urun := insertFacilitySignups db.signups users userOracle
            match urun.result with
            | Except.error e =>
              (⟨200, .success payload ⟨none, none, some e⟩⟩, 2,
                { db with signups := urun.table })
            | Except.ok ures =>
              match payload.courses with
              | some cs =>
                let crun := insertCourseInfo db.courses cs courseOracle
                match crun.result with
                | Except.error e =>
                  (⟨200, .success payload ⟨some ures, none, some e⟩⟩, 2,
                    ⟨urun.table, crun.table⟩)
                | Except.ok cres =>
                  (⟨200, .success payload ⟨some ures, some cres, none⟩⟩, 2,
                    ⟨urun.table, crun.table⟩)
              | none =>
                (⟨200, .success payload ⟨some ures, none, none⟩⟩, 2,
                  { db with signups := urun.table })
          | none =>
            match payload.courses with
            | some cs =>
              let crun := insertCourseInfo db.courses cs courseOracle
              match crun.result with
              | Except.error e =>
                (⟨200, .success payload ⟨none, none, some e⟩⟩, 2,
                  { db with courses := crun.table })
              | Except.ok cres =>
                (⟨200, .success payload ⟨none, some cres, none⟩⟩, 2,
                  { db with courses := crun.table })
            | none => (⟨200, .success payload ⟨none, none, none⟩⟩, 2, db)

/-- The e-learning fetch payload: `some` models a truthy array under `data`. -/
structure ElearnPayload where
  data : Option (List CodeRecord)

/-- The `database` object assembled by `handleGetElearningCodes`
(webhooks.js lines 290-311). -/
structure ElearnDbMap where
  elearning_codes : Option DbResult
  error : Option String
  deriving Repr, DecidableEq

/-- The JSON body sent by `handleGetElearningCodes`. -/
inductive ElearnBody where
  | success (response : ElearnPayload) (database : ElearnDbMap)
  | failure (error : String)

/-- `handleGetElearningCodes` (webhooks.js lines 234-327), embedded like
`handleGetFacilitySignups`; `role0` is the `session_replication_role` of the
pooled connection its upsert acquires, `now` the timestamp used for
`new Date().toISOString()`. Returns the HTTP response, the number of
outbound HTTPS calls, the codes table, and the released connection's role
(`role0` when the upsert was not reached). -/
def handleGetElearningCodes (env : Env)
    (authOutcome : Except String AuthResponse)
    (fetchOutcome : Except String ElearnPayload) (codes0 : List CodeRecord)
    (role0 : Role) (now : String) (codeOracle : Nat → Option String) :
    HttpResponse ElearnBody × Nat × List CodeRecord × Role :=
  if !(envTruthy env.FACILITY_ID) then
    (⟨500, .failure "FACILITY_ID environment variable is not set"⟩, 0,
      codes0, role0)
  else if !(envTruthy env.EXTERNAL_WEBHOOK_URL) then
    (⟨500, .failure "EXTERNAL_WEBHOOK_URL environment variable is not set"⟩,
      0, codes0, role0)
  else if !(envTruthy env.DATABASE_URL) then
    (⟨500, .failure "DATABASE_URL environment variable is not set"⟩, 0,
      codes0, role0)
  else
    match authOutcome with
    | Except.error e => (⟨500, .failure e⟩, 1, codes0, role0)
    | Except.ok auth =>
      match extractSessionElearning auth with
      | Except.error e => (⟨500, .failure e⟩, 1, codes0, role0)
      | Except.ok _session =>
        match fetchOutcome with
        | Except.error e => (⟨500, .failure e⟩, 2, codes0, role0)
        | Except.ok payload =>
          match payload.data with
          | some codes =>
            let run := insertElearningCodes role0 codes0 codes now codeOracle
            match run.result with
            | Except.error e =>
              (⟨200, .success payload ⟨none, some e⟩⟩, 2, run.table, run.role)
            | Except.ok r =>
              (⟨200, .success payload ⟨some r, none⟩⟩, 2, run.table, run.role)
          | none =>
            (⟨200, .success payload ⟨none, none⟩⟩, 2, codes0, role0)

/-- The acknowledgement body of the sync-users handler. -/
structure SyncBody where
  success : Bool
  message : String
  timestamp : String
  deriving Repr, DecidableEq

/-- Modelled from the spec: `handleSyncUsers` is imported and mounted by
`src/app.js` but its definition is not among the source files; per the spec
(section 4.5 and section 6) it only acknowledges receipt, echoing a
timestamped success payload, calling no external service and performing no
database write. `now` is the timestamp at the invocation. Returns the HTTP
response, the number of outbound HTTPS calls (always 0), and the database
(always unchanged). -/
def handleSyncUsers (now : String) (db : Db) :
    HttpResponse SyncBody × Nat × Db :=
  (⟨200, ⟨true, "Sync Users webhook received", now⟩⟩, 0, db)

/-- The webhook routes mounted by the application entry points
(`src/app.js` line 16 and the variant entry point): method and path. -/
def appRoutes : List (String × String) :=
  [("POST", "/webhook/sync-users"),
   ("POST", "/webhook/get-facility-signups"),
   ("POST", "/webhook/get-elearning-codes")]

/-- Outcome of a settled promise: `resolved` or `rejected`. -/
inductive PromiseOutcome (A : Type) where
  | resolved (v : A)
  | rejected (e : String)
  deriving DecidableEq

/-- What a response-body handler passes to `resolve`: the parsed JSON value,
or the wrapper `{raw: <original body text>}`. -/
inductive ParsedBody (J : Type) where
  | parsed (j : J)
  | raw (body : String)
  deriving DecidableEq

/-- The `end` listener of `makeExternalRequest` (webhooks.js lines 45-52):
`JSON.parse` is the external `parse` oracle; on success resolve the parsed
value, on a parse exception resolve `{raw: responseData}`. Never rejects. -/
def externalRequestOnEnd {J : Type} (parse : String → Except String J)
    (body : String) : PromiseOutcome (ParsedBody J) :=
  match parse body with
  | Except.ok j => .resolved (.parsed j)
  | Except.error _ => .resolved (.raw body)

/-- The `end` listener of `makeFacilitySignupsRequest` (webhooks.js lines
211-218), identical handling. -/
def facilitySignupsOnEnd {J : Type} (parse : String → Except String J)
    (body : String) : PromiseOutcome (ParsedBody J) :=
  match parse body with
  | Except.ok j => .resolved (.parsed j)
  | Except.error _ => .resolved (.raw body)

/-- The `end` listener of `makeElearningCodesRequest` (webhooks.js lines
359-366), identical handling. -/
def elearningCodesOnEnd {J : Type} (parse : String → Except String J)
    (body : String) : PromiseOutcome (ParsedBody J) :=
  match parse body with
  | Except.ok j => .resolved (.parsed j)
  | Except.error _ => .resolved (.raw body)

/-- The `database` map of a facility-signups 200 body, when present. -/
def FacilityBody.databaseMap : FacilityBody → Option FacilityDbMap
  | .success _ d => some d
  | .failure _ => none

/-- The error message of a facility-signups 500 body, when present. -/
def FacilityBody.errorMsg : FacilityBody → Option String
  | .success _ _ => none
  | .failure e => some e

/-- The `database` map of an e-learning 200 body, when present. -/
def ElearnBody.databaseMap : ElearnBody → Option ElearnDbMap
  | .success _ d => some d
  | .failure _ => none

/-- The error message of an e-learning 500 body, when present. -/
def ElearnBody.errorMsg : ElearnBody → Option String
  | .success _ _ => none
  | .failure e => some e

/-- A concrete, fully-populated signup record for instantiating theorems. -/
def sampleSignup (uid : Int) (uname : String) : SignupRecord where
  user_id := .num uid
  id := .num 10
  facility_id := .num 3
  user_uuid := .str "uuid-1"
  username := .str uname
  name := .str "Sam Diver"
  email := .str "sam@example.com"
  email_verified_at := .str "2024-01-02"
  password := .str "hash"
  remember_token := .str "tok"
  created_at := .str "2024-01-01"
  updated_at := .str "2024-02-01"
  created_user_id := .num 5
  updated_user_id := .num 6
  instance_id := .num 7
  prefix_id := .num 8
  first_name := .str "Sam"
  middle_name := .str "Q"
  last_name := .str "Diver"
  suffix_id := .num 9
  gender := .num 1
  member_number := .num 12
  region_id := .num 13
  login_count := .num 14
  login_stamp := .str "2024-03-01"
  status_id := .num 2
  user_level_id := .num 3
  admin_level_id := .num 4
  dob := .str "1990-05-06"
  meta_data := .str "m"
  external_ids := .str "x"
  biometric_key := .str "b"
  biometric_expiration := .str "2030-01-01"
  reward_program := .str "r"
  member_added_date := .str "2024-01-03"

/-- A concrete course record for instantiating theorems. -/
def sampleCourse : CourseRec where
  course_id := .num 100
  agency := .str "AgencyA"
  agency_id := .num 1
  label := .str "Open Water"

/-- A concrete e-learning code record for instantiating theorems. -/
def sampleCode (cid : Int) : CodeRecord where
  id := .num cid
  user_id := .num 1
  course_id := .num 100
  user_name := .str "samd"
  first_name := .str "Sam"
  middle_name := .str "Q"
  last_name := .str "Diver"
  dob := .str "1990-05-06"
  email := .str "sam@example.com"
  facility_id := .num 3
  facility_name := .str "Dive Shop"
  facility_number := .num 4
  office_id := .num 5
  agency_id := .num 1
  agency := .str "AgencyA"
  course_name := .str "Open Water"
  course_meta := .str "meta"
  moodle_id := .num 6
  instance_id := .num 7
  prefix_id := .num 8
  suffix_id := .num 9
  status_id := .num 1
  status_label := .str "Active"
  signup_code := .str "CODE1"
  signup_date := .str "2024-04-01"
  help_date := .str "2024-04-02"
  created_at := .str "2024-01-01"
  updated_at := .str "2024-02-01"

/-- A signup record whose optional (defaulted) fields are all null. -/
def nullishSignup : SignupRecord where
  user_id := .num 21
  id := .num 22
  facility_id := .num 3
  user_uuid := .str "uuid-2"
  username := .str "nully"
  name := .str "Null User"
  email := .str "null@example.com"
  email_verified_at := .null
  password := .str "hash"
  remember_token := .null
  created_at := .str "2024-06-01"
  updated_at := .null
  created_user_id := .null
  updated_user_id := .null
  instance_id := .null
  prefix_id := .null
  first_name := .str "Null"
  middle_name := .null
  last_name := .str "User"
  suffix_id := .null
  gender := .null
  member_number := .null
  region_id := .null
  login_count := .null
  login_stamp := .null
  status_id := .null
  user_level_id := .null
  admin_level_id := .null
  dob := .null
  meta_data := .null
  external_ids := .null
  biometric_key := .null
  biometric_expiration := .null
  reward_program := .null
  member_added_date := .null

/-- An e-learning code record with every field null. -/
def nullishCode : CodeRecord where
  id := .null
  user_id := .null
  course_id := .null
  user_name := .null
  first_name := .null
  middle_name := .null
  last_name := .null
  dob := .null
  email := .null
  facility_id := .null
  facility_name := .null
  facility_number := .null
  office_id := .null
  agency_id := .null
  agency := .null
  course_name := .null
  course_meta := .null
  moodle_id := .null
  instance_id := .null
  prefix_id := .null
  suffix_id := .null
  status_id := .null
  status_label := .null
  signup_code := .null
  signup_date := .null
  help_date := .null
  created_at := .null
  updated_at := .null

/-- An environment with all three required settings present. -/
def envAll : Env where
  FACILITY_ID := some "fac-1"
  EXTERNAL_WEBHOOK_URL := some "https://hook.example.com/auth"
  DATABASE_URL := some "postgres://db"

/-! ### Lemmas about the shared insert loop -/

theorem insertLoop_fst_ok {Row Rec : Type} (step : List Row → Rec → List Row)
    (rs : List Rec) (t : List Row) (i : Nat) (oracle : Nat → Option String)
    (h : ∀ j, j < rs.length → oracle (i + j) = none) :
    (insertLoop step t rs i oracle).1 = Except.ok (rs.foldl step t) := by
  induction rs generalizing t i with
  | nil => simp [insertLoop]
  | cons r rest ih =>
    have h0 : oracle i = none := by simpa using h 0 (by simp)
    have hrec := ih (step t r) (i + 1) (fun j hj => by
      have := h (j + 1) (by simpa using Nat.succ_lt_succ hj)
      simpa [Nat.add_assoc, Nat.add_comm 1 j] using this)
    simp [insertLoop, h0, hrec]

theorem insertLoop_fst_fail {Row Rec : Type}
    (step : List Row → Rec → List Row) (rs : List Rec) (t : List Row)
    (i k : Nat) (e : String) (oracle : Nat → Option String)
    (hk : oracle (i + k) = some e) (hlen : k < rs.length)
    (hbefore : ∀ j, j < k → oracle (i + j) = none) :
    (insertLoop step t rs i oracle).1 = Except.error e := by
  induction rs generalizing t i k with
  | nil => simp at hlen
  | cons r rest ih =>
    cases k with
    | zero =>
      have h0 : oracle i = some e := by simpa using hk
      simp [insertLoop, h0]
    | succ k =>
      have h0 : oracle i = none := by simpa using hbefore 0 (Nat.succ_pos k)
      have hrec := ih (step t r) (i + 1) k
        (by simpa [Nat.add_assoc, Nat.add_comm 1 k] using hk)
        (by simpa using Nat.lt_of_succ_lt_succ hlen)
        (fun j hj => by
          have := hbefore (j + 1) (Nat.succ_lt_succ hj)
          simpa [Nat.add_assoc, Nat.add_comm 1 j] using this)
      simp [insertLoop, h0, hrec]

theorem insertLoop_events_writes {Row Rec : Type}
    (step : List Row → Rec → List Row) (rs : List Rec) (t : List Row)
    (i : Nat) (oracle : Nat → Option String) :
    ∀ ev ∈ (insertLoop step t rs i oracle).2, ∃ j, ev = Ev.write j := by
  induction rs generalizing t i with
  | nil => simp [insertLoop]
  | cons r rest ih =>
    intro ev hev
    cases ho : oracle i with
    | some e =>
      simp [insertLoop, ho] at hev
      exact ⟨i, hev⟩
    | none =>
      simp [insertLoop, ho] at hev
      rcases hev with hev | hev
      · exact ⟨i, hev⟩
      · exact ih (step t r) (i + 1) ev hev

theorem insertLoop_events_not_write {Row Rec : Type}
    (step : List Row → Rec → List Row) (rs : List Rec) (t : List Row)
    (i : Nat) (oracle : Nat → Option String) (ev : Ev)
    (hev : ∀ j, ev ≠ Ev.write j) :
    ev ∉ (insertLoop step t rs i oracle).2 := by
  intro hmem
  obtain ⟨j, hj⟩ := insertLoop_events_writes step rs t i oracle ev hmem
  exact hev j hj

/-- On an all-successful write oracle, `insertFacilitySignups` upserts every
record in order, commits, and returns the full count. -/
theorem insertFacilitySignups_all_ok (t users : List SignupRecord)
    (oracle : Nat → Option String)
    (h : ∀ j, j < users.length → oracle j = none) :
    insertFacilitySignups t users oracle
      = { result := Except.ok
            { success := true
              message := "Inserted/Updated " ++ toString users.length ++
                " users"
              count := users.length }
          table := users.foldl
            (fun a u => signupTableUpsert a (normalizeSignup u)) t
          events := [Ev.acquire, Ev.beginTx] ++
            (signupLoop t users 0 oracle).2 ++ [Ev.commit, Ev.release] } := by
  have hloop : (signupLoop t users 0 oracle).1
      = Except.ok (users.foldl
          (fun a u => signupTableUpsert a (normalizeSignup u)) t) :=
    insertLoop_fst_ok _ _ _ _ _ (fun j hj => by simpa using h j hj)
  simp [insertFacilitySignups, hloop]

/-- On a write oracle whose first failure is at index `k`,
`insertFacilitySignups` rolls back (the committed table is unchanged) and
rethrows the write's error. -/
theorem insertFacilitySignups_first_fail (t users : List SignupRecord)
    (oracle : Nat → Option String) (k : Nat) (e : String)
    (hk : oracle k = some e) (hlen : k < users.length)
    (hb : ∀ j, j < k → oracle j = none) :
    insertFacilitySignups t users oracle
      = { result := Except.error e
          table := t
          events := [Ev.acquire, Ev.beginTx] ++
            (signupLoop t users 0 oracle).2 ++
            [Ev.rollback, Ev.release] } := by
  have hloop : (signupLoop t users 0 oracle).1 = Except.error e :=
    insertLoop_fst_fail _ _ _ _ k _ _ (by simpa using hk) hlen
      (fun j hj => by simpa using hb j hj)
  simp [insertFacilitySignups, hloop]

/-- On an all-successful write oracle, `insertElearningCodes` suspends and
restores enforcement, upserts every record in order, commits, and returns
the full count. -/
theorem insertElearningCodes_all_ok (role0 : Role) (t codes : List CodeRecord)
    (now : String) (oracle : Nat → Option String)
    (h : ∀ j, j < codes.length → oracle j = none) :
    insertElearningCodes role0 t codes now oracle
      = { result := Except.ok
            { success := true
              message := "Inserted/Updated " ++ toString codes.length ++
                " e-learning codes"
              count := codes.length }
          table := codes.foldl
            (fun a c => codeTableUpsert a (normalizeCode now c)) t
          role := Role.origin
          events := [Ev.acquire, Ev.beginTx, Ev.setReplica] ++
            (codeLoop t codes 0 now oracle).2 ++
            [Ev.setDefault, Ev.commit, Ev.release] } := by
  have hloop : (codeLoop t codes 0 now oracle).1
      = Except.ok (codes.foldl
          (fun a c => codeTableUpsert a (normalizeCode now c)) t) :=
    insertLoop_fst_ok _ _ _ _ _ (fun j hj => by simpa using h j hj)
  simp [insertElearningCodes, hloop]

/-- On a write oracle whose first failure is at index `k`,
`insertElearningCodes` rolls back and rethrows the write's error; the
rollback also reverts the in-transaction suspension, restoring the released
connection's role to `role0`. -/
theorem insertElearningCodes_first_fail (role0 : Role)
    (t codes : List CodeRecord) (now : String)
    (oracle : Nat → Option String) (k : Nat) (e : String)
    (hk : oracle k = some e) (hlen : k < codes.length)
    (hb : ∀ j, j < k → oracle j = none) :
    insertElearningCodes role0 t codes now oracle
      = { result := Except.error e
          table := t
          role := role0
          events := [Ev.acquire, Ev.beginTx, Ev.setReplica] ++
            (codeLoop t codes 0 now oracle).2 ++
            [Ev.rollback, Ev.release] } := by
  have hloop : (codeLoop t codes 0 now oracle).1 = Except.error e :=
    insertLoop_fst_fail _ _ _ _ k _ _ (by simpa using hk) hlen
      (fun j hj => by simpa using hb j hj)
  simp [insertElearningCodes, hloop]

/-! ### Claim theorems -/

/-- C1: the claim says nested `{response: {cookies, xsrf}}` and flat
`{cookies, xsrf}` envelopes with identical cookie/xsrf values yield the
identical extracted credential in both handlers. This holds in the
e-learning-codes handler, but the facility-signups handler's flat-envelope
branch reads `externalResponse.response.xsrf`, and with the `response` key
absent this property read on `undefined` throws a `TypeError` instead of
producing a credential: evaluated here at the flat envelope
`{cookies: {ITIAuthToken: "abc"}, xsrf: "xyz"}`. The parallel branch of the
e-learning handler reads `externalResponse.xsrf`, so the intended behavior of
the facility branch is clear and the claim exposes a code bug. -/
theorem extractSession_flat_envelope_facility_bug :
    extractSessionFacility (nestedEnvelope [("ITIAuthToken", "abc")] "xyz")
      = Except.ok ([("ITIAuthToken", "abc")], "xyz")
    ∧ extractSessionFacility (flatEnvelope [("ITIAuthToken", "abc")] "xyz")
      = Except.error "Cannot read properties of undefined (reading 'xsrf')"
    ∧ extractSessionElearning (nestedEnvelope [("ITIAuthToken", "abc")] "xyz")
      = Except.ok ([("ITIAuthToken", "abc")], "xyz")
    ∧ extractSessionElearning (flatEnvelope [("ITIAuthToken", "abc")] "xyz")
      = Except.ok ([("ITIAuthToken", "abc")], "xyz") :=
  ⟨rfl, rfl, rfl, rfl⟩

/-- C6: for every upstream response body on which `JSON.parse` fails, the
`end` listeners of all three HTTP client functions resolve (never reject)
with the wrapper `{raw: <original body text>}` carrying the body text
unmodified. -/
theorem nonjson_body_resolves_raw_wrapper {J : Type}
    (parse : String → Except String J) (body e : String)
    (h : parse body = Except.error e) :
    externalRequestOnEnd parse body
      = PromiseOutcome.resolved (ParsedBody.raw body)
    ∧ facilitySignupsOnEnd parse body
      = PromiseOutcome.resolved (ParsedBody.raw body)
    ∧ elearningCodesOnEnd parse body
      = PromiseOutcome.resolved (ParsedBody.raw body) := by
  refine ⟨?_, ?_, ?_⟩
  all_goals
    simp [externalRequestOnEnd, facilitySignupsOnEnd, elearningCodesOnEnd, h]

/-- Witness for C6 at a concrete failing parser and body. -/
theorem nonjson_body_resolves_raw_wrapper_witness :
    externalRequestOnEnd (J := Unit)
        (fun _ => Except.error "Unexpected token < in JSON") "<html></html>"
      = PromiseOutcome.resolved (ParsedBody.raw "<html></html>")
    ∧ facilitySignupsOnEnd (J := Unit)
        (fun _ => Except.error "Unexpected token < in JSON") "<html></html>"
      = PromiseOutcome.resolved (ParsedBody.raw "<html></html>")
    ∧ elearningCodesOnEnd (J := Unit)
        (fun _ => Except.error "Unexpected token < in JSON") "<html></html>"
      = PromiseOutcome.resolved (ParsedBody.raw "<html></html>") :=
  nonjson_body_resolves_raw_wrapper
    (fun _ => Except.error "Unexpected token < in JSON") "<html></html>"
    "Unexpected token < in JSON" rfl

/-- C9: a stand-alone sync-users handler is mounted at
`POST /webhook/sync-users`; it issues no outbound HTTPS call, leaves the
database unchanged, and responds 200 with a timestamped success
acknowledgement. The handler body is modelled from the spec (its definition
is not among the source files; `src/app.js` mounts it). -/
theorem syncUsers_route_acknowledges_without_side_effects
    (now : String) (db : Db) :
    ("POST", "/webhook/sync-users") ∈ appRoutes
    ∧ (handleSyncUsers now db).1.status = 200
    ∧ (handleSyncUsers now db).1.body
        = { success := true, message := "Sync Users webhook received",
            timestamp := now }
    ∧ (handleSyncUsers now db).2.1 = 0
    ∧ (handleSyncUsers now db).2.2 = db := by
  refine ⟨?_, rfl, rfl, rfl, rfl⟩
  simp [appRoutes]

/-- C8: in every run of the e-learning-code upsert, referential-integrity
enforcement is suspended (`SET session_replication_role = replica`)
immediately after `BEGIN` and before any record write, every record write
occurs while enforcement is suspended, and whenever the run commits, the
restoring `SET session_replication_role = DEFAULT` precedes the `COMMIT`
(the trace commits only in the tail `[setDefault, commit, release]`). -/
theorem elearn_suspension_brackets_all_writes (role0 : Role)
    (t codes : List CodeRecord) (now : String)
    (oracle : Nat → Option String) :
    ∃ ws tail,
      (insertElearningCodes role0 t codes now oracle).events
        = [Ev.acquire, Ev.beginTx, Ev.setReplica] ++ ws ++ tail
      ∧ (∀ ev ∈ ws, ∃ i, ev = Ev.write i)
      ∧ (tail = [Ev.setDefault, Ev.commit, Ev.release]
          ∨ tail = [Ev.rollback, Ev.release])
      ∧ (Ev.commit ∈ (insertElearningCodes role0 t codes now oracle).events
          → tail = [Ev.setDefault, Ev.commit, Ev.release]) := by
  have hw := insertLoop_events_writes
    (fun a c => codeTableUpsert a (normalizeCode now c)) codes t 0 oracle
  cases hloop : (codeLoop t codes 0 now oracle).1 with
  | ok t2 =>
    refine ⟨(codeLoop t codes 0 now oracle).2,
      [Ev.setDefault, Ev.commit, Ev.release], ?_, ?_, Or.inl rfl, fun _ => rfl⟩
    · simp [insertElearningCodes, hloop]
    · intro ev hev
      exact hw ev (by simpa [codeLoop] using hev)
  | error e =>
    refine ⟨(codeLoop t codes 0 now oracle).2, [Ev.rollback, Ev.release],
      ?_, ?_, Or.inr rfl, ?_⟩
    · simp [insertElearningCodes, hloop]
    · intro ev hev
      exact hw ev (by simpa [codeLoop] using hev)
    · intro hc
      exfalso
      have hev : (insertElearningCodes role0 t codes now oracle).events
          = [Ev.acquire, Ev.beginTx, Ev.setReplica] ++
            (codeLoop t codes 0 now oracle).2 ++ [Ev.rollback, Ev.release] := by
        simp [insertElearningCodes, hloop]
      rw [hev] at hc
      simp [List.mem_append] at hc
      obtain ⟨j, hj⟩ := hw Ev.commit (by simpa [codeLoop] using hc)
      simp at hj

/-- C10 counterexample: the claim asserts that on a query failure after the
suspension, the pooled connection is returned with
`session_replication_role` still set to `replica`. At the concrete failing
run below (one record, its insert fails, the connection's role starts at the
default `origin`) the error path indeed skips the restoring `SET` statement
and rolls back, yet the released connection's role is `origin`, not
`replica`: the suspension `SET` was issued inside the rolled-back
transaction, and PostgreSQL reverts a non-`LOCAL` `SET` when the
transaction rolls back. -/
theorem elearn_error_path_role_not_replica :
    (insertElearningCodes Role.origin [] [sampleCode 1] "2025-01-01"
        (fun _ => some "insert fails")).role = Role.origin
    ∧ (insertElearningCodes Role.origin [] [sampleCode 1] "2025-01-01"
        (fun _ => some "insert fails")).role ≠ Role.replica
    ∧ Ev.setDefault ∉ (insertElearningCodes Role.origin [] [sampleCode 1]
        "2025-01-01" (fun _ => some "insert fails")).events
    ∧ Ev.rollback ∈ (insertElearningCodes Role.origin [] [sampleCode 1]
        "2025-01-01" (fun _ => some "insert fails")).events := by
  refine ⟨rfl, ?_, ?_, ?_⟩
  all_goals simp [insertElearningCodes, codeLoop, insertLoop]

/-- C10 amended: in every run of the e-learning-code upsert in which a
record write fails after enforcement has been suspended, the error path
rolls back, rethrows the error, and releases the connection without issuing
the restoring `SET session_replication_role = DEFAULT` statement; however,
because the suspending `SET` was issued inside the transaction, the
`ROLLBACK` itself reverts it, so the pooled connection is returned with
`session_replication_role` equal to its pre-transaction value — enforcement
is not left suspended. -/
theorem elearn_error_path_skips_restore_but_rollback_reverts
    (role0 : Role) (t codes : List CodeRecord) (now : String)
    (oracle : Nat → Option String) (k : Nat) (e : String)
    (hk : oracle k = some e) (hlen : k < codes.length)
    (hbefore : ∀ j, j < k → oracle j = none) :
    (insertElearningCodes role0 t codes now oracle).result = Except.error e
    ∧ Ev.setDefault ∉ (insertElearningCodes role0 t codes now oracle).events
    ∧ Ev.rollback ∈ (insertElearningCodes role0 t codes now oracle).events
    ∧ Ev.release ∈ (insertElearningCodes role0 t codes now oracle).events
    ∧ (insertElearningCodes role0 t codes now oracle).role = role0 := by
  have hfail : (codeLoop t codes 0 now oracle).1 = Except.error e := by
    apply insertLoop_fst_fail _ _ _ _ k _ _ (by simpa using hk) hlen
    intro j hj
    simpa using hbefore j hj
  have hw := insertLoop_events_writes
    (fun a c => codeTableUpsert a (normalizeCode now c)) codes t 0 oracle
  refine ⟨?_, ?_, ?_, ?_, ?_⟩
  · simp [insertElearningCodes, hfail]
  · intro hmem
    have hev : (insertElearningCodes role0 t codes now oracle).events
        = [Ev.acquire, Ev.beginTx, Ev.setReplica] ++
          (codeLoop t codes 0 now oracle).2 ++ [Ev.rollback, Ev.release] := by
      simp [insertElearningCodes, hfail]
    rw [hev] at hmem
    simp [List.mem_append] at hmem
    obtain ⟨j, hj⟩ := hw Ev.setDefault (by simpa [codeLoop] using hmem)
    simp at hj
  · have hev : (insertElearningCodes role0 t codes now oracle).events
        = [Ev.acquire, Ev.beginTx, Ev.setReplica] ++
          (codeLoop t codes 0 now oracle).2 ++ [Ev.rollback, Ev.release] := by
      simp [insertElearningCodes, hfail]
    rw [hev]
    simp
  · have hev : (insertElearningCodes role0 t codes now oracle).events
        = [Ev.acquire, Ev.beginTx, Ev.setReplica] ++
          (codeLoop t codes 0 now oracle).2 ++ [Ev.rollback, Ev.release] := by
      simp [insertElearningCodes, hfail]
    rw [hev]
    simp
  · simp [insertElearningCodes, hfail]

/-- Witness for the amended C10 theorem at a concrete failing run. -/
theorem elearn_error_path_skips_restore_witness :
    (insertElearningCodes Role.origin [] [sampleCode 2, sampleCode 3]
        "2025-06-01" (fun i => if i = 1 then some "duplicate key" else none)
      ).result = Except.error "duplicate key"
    ∧ Ev.setDefault ∉ (insertElearningCodes Role.origin []
        [sampleCode 2, sampleCode 3] "2025-06-01"
        (fun i => if i = 1 then some "duplicate key" else none)).events
    ∧ Ev.rollback ∈ (insertElearningCodes Role.origin []
        [sampleCode 2, sampleCode 3] "2025-06-01"
        (fun i => if i = 1 then some "duplicate key" else none)).events
    ∧ Ev.release ∈ (insertElearningCodes Role.origin []
        [sampleCode 2, sampleCode 3] "2025-06-01"
        (fun i => if i = 1 then some "duplicate key" else none)).events
    ∧ (insertElearningCodes Role.origin [] [sampleCode 2, sampleCode 3]
        "2025-06-01" (fun i => if i = 1 then some "duplicate key" else none)
      ).role = Role.origin :=
  elearn_error_path_skips_restore_but_rollback_reverts Role.origin []
    [sampleCode 2, sampleCode 3] "2025-06-01"
    (fun i => if i = 1 then some "duplicate key" else none) 1 "duplicate key"
    rfl (by simp) (by intro j hj; interval_cases j; rfl)

/-- C4: each upsert routine (`insertFacilitySignups`, `insertElearningCodes`)
runs one all-or-nothing transaction. On an all-successful write oracle it
commits and returns `{success: true, count: N}` with `N` the number of input
records, the table becoming the in-order fold of the per-record upserts; on
an oracle whose first failure is at index `k` it rethrows that error with the
committed table unchanged (no partial commit), rolling back instead of
committing; and on both paths the acquired connection is released. -/
theorem upsert_routines_transactional
    (t users : List SignupRecord) (tc codes : List CodeRecord)
    (role0 : Role) (now : String)
    (okO failO okC failC : Nat → Option String)
    (k : Nat) (e : String) (kc : Nat) (ec : String)
    (hok : ∀ j, j < users.length → okO j = none)
    (hfk : failO k = some e) (hklen : k < users.length)
    (hfb : ∀ j, j < k → failO j = none)
    (hokC : ∀ j, j < codes.length → okC j = none)
    (hfkC : failC kc = some ec) (hkclen : kc < codes.length)
    (hfbC : ∀ j, j < kc → failC j = none) :
    ((insertFacilitySignups t users okO).result
        = Except.ok { success := true
                      message := "Inserted/Updated " ++
                        toString users.length ++ " users"
                      count := users.length }
      ∧ (insertFacilitySignups t users okO).table
        = users.foldl (fun a u => signupTableUpsert a (normalizeSignup u)) t
      ∧ Ev.commit ∈ (insertFacilitySignups t users okO).events
      ∧ Ev.release ∈ (insertFacilitySignups t users okO).events)
    ∧ ((insertFacilitySignups t users failO).result = Except.error e
      ∧ (insertFacilitySignups t users failO).table = t
      ∧ Ev.commit ∉ (insertFacilitySignups t users failO).events
      ∧ Ev.rollback ∈ (insertFacilitySignups t users failO).events
      ∧ Ev.release ∈ (insertFacilitySignups t users failO).events)
    ∧ ((insertElearningCodes role0 tc codes now okC).result
        = Except.ok { success := true
                      message := "Inserted/Updated " ++
                        toString codes.length ++ " e-learning codes"
                      count := codes.length }
      ∧ (insertElearningCodes role0 tc codes now okC).table
        = codes.foldl (fun a c => codeTableUpsert a (normalizeCode now c)) tc
      ∧ Ev.commit ∈ (insertElearningCodes role0 tc codes now okC).events
      ∧ Ev.release ∈ (insertElearningCodes role0 tc codes now okC).events)
    ∧ ((insertElearningCodes role0 tc codes now failC).result
        = Except.error ec
      ∧ (insertElearningCodes role0 tc codes now failC).table = tc
      ∧ Ev.commit ∉ (insertElearningCodes role0 tc codes now failC).events
      ∧ Ev.rollback ∈ (insertElearningCodes role0 tc codes now failC).events
      ∧ Ev.release ∈ (insertElearningCodes role0 tc codes now failC).events)
    := by
  have HFok := insertFacilitySignups_all_ok t users okO hok
  have HFfail := insertFacilitySignups_first_fail t users failO k e hfk
    hklen hfb
  have HEok := insertElearningCodes_all_ok role0 tc codes now okC hokC
  have HEfail := insertElearningCodes_first_fail role0 tc codes now failC kc
    ec hfkC hkclen hfbC
  refine ⟨⟨?_, ?_, ?_, ?_⟩, ⟨?_, ?_, ?_, ?_, ?_⟩, ⟨?_, ?_, ?_, ?_⟩,
    ⟨?_, ?_, ?_, ?_, ?_⟩⟩
  · rw [HFok]
  · rw [HFok]
  · rw [HFok]; simp
  · rw [HFok]; simp
  · rw [HFfail]
  · rw [HFfail]
  · rw [HFfail]
    intro hmem
    simp [List.mem_append] at hmem
    exact insertLoop_events_not_write _ users t 0 failO Ev.commit
      (fun j => by simp) (by simpa [signupLoop] using hmem)
  · rw [HFfail]; simp
  · rw [HFfail]; simp
  · rw [HEok]
  · rw [HEok]
  · rw [HEok]; simp
  · rw [HEok]; simp
  · rw [HEfail]
  · rw [HEfail]
  · rw [HEfail]
    intro hmem
    simp [List.mem_append] at hmem
    exact insertLoop_events_not_write _ codes tc 0 failC Ev.commit
      (fun j => by simp) (by simpa [codeLoop] using hmem)
  · rw [HEfail]; simp
  · rw [HEfail]; simp

/-- Witness for C4 at concrete batches: a two-record signup batch and a
two-record code batch, an all-successful oracle and an oracle failing on the
second write of each. -/
theorem upsert_routines_transactional_witness :
    ((insertFacilitySignups [] [sampleSignup 1 "a", sampleSignup 2 "b"]
        (fun _ => none)).result
      = Except.ok { success := true
                    message := "Inserted/Updated " ++ toString
                      [sampleSignup 1 "a", sampleSignup 2 "b"].length ++
                      " users"
                    count := [sampleSignup 1 "a", sampleSignup 2 "b"].length }
      ∧ (insertFacilitySignups [] [sampleSignup 1 "a", sampleSignup 2 "b"]
          (fun _ => none)).table
        = [sampleSignup 1 "a", sampleSignup 2 "b"].foldl
            (fun a u => signupTableUpsert a (normalizeSignup u)) []
      ∧ Ev.commit ∈ (insertFacilitySignups []
          [sampleSignup 1 "a", sampleSignup 2 "b"] (fun _ => none)).events
      ∧ Ev.release ∈ (insertFacilitySignups []
          [sampleSignup 1 "a", sampleSignup 2 "b"] (fun _ => none)).events)
    ∧ ((insertFacilitySignups [] [sampleSignup 1 "a", sampleSignup 2 "b"]
          (fun i => if i = 1 then some "disk full" else none)).result
        = Except.error "disk full"
      ∧ (insertFacilitySignups [] [sampleSignup 1 "a", sampleSignup 2 "b"]
          (fun i => if i = 1 then some "disk full" else none)).table = []
      ∧ Ev.commit ∉ (insertFacilitySignups []
          [sampleSignup 1 "a", sampleSignup 2 "b"]
          (fun i => if i = 1 then some "disk full" else none)).events
      ∧ Ev.rollback ∈ (insertFacilitySignups []
          [sampleSignup 1 "a", sampleSignup 2 "b"]
          (fun i => if i = 1 then some "disk full" else none)).events
      ∧ Ev.release ∈ (insertFacilitySignups []
          [sampleSignup 1 "a", sampleSignup 2 "b"]
          (fun i => if i = 1 then some "disk full" else none)).events)
    ∧ ((insertElearningCodes Role.origin [] [sampleCode 4, sampleCode 5]
          "2025-06-01" (fun _ => none)).result
        = Except.ok { success := true
                      message := "Inserted/Updated " ++ toString
                        [sampleCode 4, sampleCode 5].length ++
                        " e-learning codes"
                      count := [sampleCode 4, sampleCode 5].length }
      ∧ (insertElearningCodes Role.origin [] [sampleCode 4, sampleCode 5]
          "2025-06-01" (fun _ => none)).table
        = [sampleCode 4, sampleCode 5].foldl
            (fun a c => codeTableUpsert a (normalizeCode "2025-06-01" c)) []
      ∧ Ev.commit ∈ (insertElearningCodes Role.origin []
          [sampleCode 4, sampleCode 5] "2025-06-01" (fun _ => none)).events
      ∧ Ev.release ∈ (insertElearningCodes Role.origin []
          [sampleCode 4, sampleCode 5] "2025-06-01" (fun _ => none)).events)
    ∧ ((insertElearningCodes Role.origin [] [sampleCode 4, sampleCode 5]
          "2025-06-01" (fun i => if i = 1 then some "fk" else none)).result
        = Except.error "fk"
      ∧ (insertElearningCodes Role.origin [] [sampleCode 4, sampleCode 5]
          "2025-06-01"
          (fun i => if i = 1 then some "fk" else none)).table = []
      ∧ Ev.commit ∉ (insertElearningCodes Role.origin []
          [sampleCode 4, sampleCode 5] "2025-06-01"
          (fun i => if i = 1 then some "fk" else none)).events
      ∧ Ev.rollback ∈ (insertElearningCodes Role.origin []
          [sampleCode 4, sampleCode 5] "2025-06-01"
          (fun i => if i = 1 then some "fk" else none)).events
      ∧ Ev.release ∈ (insertElearningCodes Role.origin []
          [sampleCode 4, sampleCode 5] "2025-06-01"
          (fun i => if i = 1 then some "fk" else none)).events) :=
  upsert_routines_transactional [] [sampleSignup 1 "a", sampleSignup 2 "b"]
    [] [sampleCode 4, sampleCode 5] Role.origin "2025-06-01"
    (fun _ => none) (fun i => if i = 1 then some "disk full" else none)
    (fun _ => none) (fun i => if i = 1 then some "fk" else none)
    1 "disk full" 1 "fk"
    (fun _ _ => rfl) rfl (by simp)
    (fun j hj => by interval_cases j; rfl)
    (fun _ _ => rfl) rfl (by simp)
    (fun j hj => by interval_cases j; rfl)

/-- C5: whenever any of the three required settings (`FACILITY_ID`,
`EXTERNAL_WEBHOOK_URL`, `DATABASE_URL`) is absent (or empty), both resource
webhook handlers respond HTTP 500 with an error message naming a setting
that is indeed missing, and issue no outbound HTTPS call (the environment
checks precede the authentication request). -/
theorem missing_config_500_before_any_call (env : Env)
    (authF : Except String AuthResponse)
    (fetchF : Except String FacilityPayload) (db : Db)
    (uo co : Nat → Option String)
    (authE : Except String AuthResponse)
    (fetchE : Except String ElearnPayload) (codes0 : List CodeRecord)
    (role0 : Role) (now : String) (ko : Nat → Option String)
    (h : envTruthy env.FACILITY_ID = false
      ∨ envTruthy env.EXTERNAL_WEBHOOK_URL = false
      ∨ envTruthy env.DATABASE_URL = false) :
    (handleGetFacilitySignups env authF fetchF db uo co).1.status = 500
    ∧ (handleGetFacilitySignups env authF fetchF db uo co).2.1 = 0
    ∧ (handleGetElearningCodes env authE fetchE codes0 role0 now ko).1.status
      = 500
    ∧ (handleGetElearningCodes env authE fetchE codes0 role0 now ko).2.1 = 0
    ∧ (((handleGetFacilitySignups env authF fetchF db uo co).1.body.errorMsg
          = some "FACILITY_ID environment variable is not set"
        ∧ envTruthy env.FACILITY_ID = false)
      ∨ ((handleGetFacilitySignups env authF fetchF db uo co).1.body.errorMsg
          = some "EXTERNAL_WEBHOOK_URL environment variable is not set"
        ∧ envTruthy env.EXTERNAL_WEBHOOK_URL = false)
      ∨ ((handleGetFacilitySignups env authF fetchF db uo co).1.body.errorMsg
          = some "DATABASE_URL environment variable is not set"
        ∧ envTruthy env.DATABASE_URL = false))
    ∧ (((handleGetElearningCodes env authE fetchE codes0 role0 now
            ko).1.body.errorMsg
          = some "FACILITY_ID environment variable is not set"
        ∧ envTruthy env.FACILITY_ID = false)
      ∨ ((handleGetElearningCodes env authE fetchE codes0 role0 now
            ko).1.body.errorMsg
          = some "EXTERNAL_WEBHOOK_URL environment variable is not set"
        ∧ envTruthy env.EXTERNAL_WEBHOOK_URL = false)
      ∨ ((handleGetElearningCodes env authE fetchE codes0 role0 now
            ko).1.body.errorMsg
          = some "DATABASE_URL environment variable is not set"
        ∧ envTruthy env.DATABASE_URL = false)) := by
  cases hF : envTruthy env.FACILITY_ID with
  | false =>
    refine ⟨?_, ?_, ?_, ?_, Or.inl ⟨?_, rfl⟩, Or.inl ⟨?_, rfl⟩⟩
    all_goals
      simp [handleGetFacilitySignups, handleGetElearningCodes, hF,
        FacilityBody.errorMsg, ElearnBody.errorMsg]
  | true =>
    cases hE : envTruthy env.EXTERNAL_WEBHOOK_URL with
    | false =>
      refine ⟨?_, ?_, ?_, ?_, Or.inr (Or.inl ⟨?_, rfl⟩),
        Or.inr (Or.inl ⟨?_, rfl⟩)⟩
      all_goals
        simp [handleGetFacilitySignups, handleGetElearningCodes, hF, hE,
          FacilityBody.errorMsg, ElearnBody.errorMsg]
    | true =>
      cases hD : envTruthy env.DATABASE_URL with
      | false =>
        refine ⟨?_, ?_, ?_, ?_, Or.inr (Or.inr ⟨?_, rfl⟩),
          Or.inr (Or.inr ⟨?_, rfl⟩)⟩
        all_goals
          simp [handleGetFacilitySignups, handleGetElearningCodes, hF, hE,
            hD, FacilityBody.errorMsg, ElearnBody.errorMsg]
      | true =>
        rcases h with h | h | h
        · rw [hF] at h; cases h
        · rw [hE] at h; cases h
        · rw [hD] at h; cases h

/-- Witness for C5 at a concrete environment missing `FACILITY_ID`. -/
theorem missing_config_500_before_any_call_witness :
    (handleGetFacilitySignups ⟨none, some "https://u", some "postgres://d"⟩
        (Except.error "unused") (Except.error "unused") ⟨[], []⟩
        (fun _ => none) (fun _ => none)).1.status = 500
    ∧ (handleGetFacilitySignups ⟨none, some "https://u", some "postgres://d"⟩
        (Except.error "unused") (Except.error "unused") ⟨[], []⟩
        (fun _ => none) (fun _ => none)).2.1 = 0
    ∧ (handleGetElearningCodes ⟨none, some "https://u", some "postgres://d"⟩
        (Except.error "unused") (Except.error "unused") [] Role.origin
        "2025-06-01" (fun _ => none)).1.status = 500
    ∧ (handleGetElearningCodes ⟨none, some "https://u", some "postgres://d"⟩
        (Except.error "unused") (Except.error "unused") [] Role.origin
        "2025-06-01" (fun _ => none)).2.1 = 0
    ∧ (((handleGetFacilitySignups
          ⟨none, some "https://u", some "postgres://d"⟩
          (Except.error "unused") (Except.error "unused") ⟨[], []⟩
          (fun _ => none) (fun _ => none)).1.body.errorMsg
          = some "FACILITY_ID environment variable is not set"
        ∧ envTruthy (Env.FACILITY_ID
            ⟨none, some "https://u", some "postgres://d"⟩) = false)
      ∨ ((handleGetFacilitySignups
          ⟨none, some "https://u", some "postgres://d"⟩
          (Except.error "unused") (Except.error "unused") ⟨[], []⟩
          (fun _ => none) (fun _ => none)).1.body.errorMsg
          = some "EXTERNAL_WEBHOOK_URL environment variable is not set"
        ∧ envTruthy (Env.EXTERNAL_WEBHOOK_URL
            ⟨none, some "https://u", some "postgres://d"⟩) = false)
      ∨ ((handleGetFacilitySignups
          ⟨none, some "https://u", some "postgres://d"⟩
          (Except.error "unused") (Except.error "unused") ⟨[], []⟩
          (fun _ => none) (fun _ => none)).1.body.errorMsg
          = some "DATABASE_URL environment variable is not set"
        ∧ envTruthy (Env.DATABASE_URL
            ⟨none, some "https://u", some "postgres://d"⟩) = false))
    ∧ (((handleGetElearningCodes
          ⟨none, some "https://u", some "postgres://d"⟩
          (Except.error "unused") (Except.error "unused") [] Role.origin
          "2025-06-01" (fun _ => none)).1.body.errorMsg
          = some "FACILITY_ID environment variable is not set"
        ∧ envTruthy (Env.FACILITY_ID
            ⟨none, some "https://u", some "postgres://d"⟩) = false)
      ∨ ((handleGetElearningCodes
          ⟨none, some "https://u", some "postgres://d"⟩
          (Except.error "unused") (Except.error "unused") [] Role.origin
          "2025-06-01" (fun _ => none)).1.body.errorMsg
          = some "EXTERNAL_WEBHOOK_URL environment variable is not set"
        ∧ envTruthy (Env.EXTERNAL_WEBHOOK_URL
            ⟨none, some "https://u", some "postgres://d"⟩) = false)
      ∨ ((handleGetElearningCodes
          ⟨none, some "https://u", some "postgres://d"⟩
          (Except.error "unused") (Except.error "unused") [] Role.origin
          "2025-06-01" (fun _ => none)).1.body.errorMsg
          = some "DATABASE_URL environment variable is not set"
        ∧ envTruthy (Env.DATABASE_URL
            ⟨none, some "https://u", some "postgres://d"⟩) = false)) :=
  missing_config_500_before_any_call
    ⟨none, some "https://u", some "postgres://d"⟩
    (Except.error "unused") (Except.error "unused") ⟨[], []⟩
    (fun _ => none) (fun _ => none)
    (Except.error "unused") (Except.error "unused") [] Role.origin
    "2025-06-01" (fun _ => none) (Or.inl rfl)

/-- C2 counterexample: at a concrete run of the facility-signups handler in
which the user-upsert succeeds on a two-record batch and the course-upsert
throws, the handler does respond 200 with `database.users.count = 2`, but
the failure is recorded under the map's `error` key — `database.courses` is
absent (`none`), not an error message — refuting the claim that the course
failure appears under the `courses` key of the per-kind result map. -/
theorem facility_course_failure_not_under_courses_key :
    (handleGetFacilitySignups envAll
        (Except.ok (nestedEnvelope [("ITIAuthToken", "abc")] "xyz"))
        (Except.ok { data := some [sampleSignup 1 "a", sampleSignup 2 "b"]
                     courses := some [("AgencyA", [sampleCourse])] })
        ⟨[], []⟩ (fun _ => none)
        (fun _ => some "relation course_info does not exist")).1.status = 200
    ∧ (handleGetFacilitySignups envAll
        (Except.ok (nestedEnvelope [("ITIAuthToken", "abc")] "xyz"))
        (Except.ok { data := some [sampleSignup 1 "a", sampleSignup 2 "b"]
                     courses := some [("AgencyA", [sampleCourse])] })
        ⟨[], []⟩ (fun _ => none)
        (fun _ => some "relation course_info does not exist")).1.body.databaseMap
      = some { users := some { success := true
                               message := "Inserted/Updated 2 users"
                               count := 2 }
               courses := none
               error := some "relation course_info does not exist" } :=
  ⟨rfl, rfl⟩

/-- C2 amended: if, in the facility-signups handler, the user-upsert
succeeds on a two-record batch and the subsequent course-upsert throws, the
handler still responds HTTP 200 with status "success", the database result
map contains users with count 2, and the course failure is recorded in the
result map under its `error` key (the `courses` key is left absent); the
persistence failure is never re-thrown and never produces HTTP 500. -/
theorem facility_course_failure_recorded_under_error_key (env : Env)
    (auth : AuthResponse) (sess : Cookies × String)
    (u1 u2 : SignupRecord) (agency : String) (c1 : CourseRec) (db : Db)
    (uo co : Nat → Option String) (e : String)
    (h1 : envTruthy env.FACILITY_ID = true)
    (h2 : envTruthy env.EXTERNAL_WEBHOOK_URL = true)
    (h3 : envTruthy env.DATABASE_URL = true)
    (hs : extractSessionFacility auth = Except.ok sess)
    (hu0 : uo 0 = none) (hu1 : uo 1 = none) (hc0 : co 0 = some e) :
    (handleGetFacilitySignups env (Except.ok auth)
        (Except.ok { data := some [u1, u2]
                     courses := some [(agency, [c1])] }) db uo co).1.status
      = 200
    ∧ (handleGetFacilitySignups env (Except.ok auth)
        (Except.ok { data := some [u1, u2]
                     courses := some [(agency, [c1])] })
        db uo co).1.body.databaseMap
      = some { users := some { success := true
                               message := "Inserted/Updated 2 users"
                               count := 2 }
               courses := none
               error := some e } := by
  have hins := insertFacilitySignups_all_ok db.signups [u1, u2] uo
    (by
      intro j hj
      simp only [List.length_cons, List.length_nil] at hj
      interval_cases j
      · exact hu0
      · exact hu1)
  have hcourse : (insertCourseInfo db.courses [(agency, [c1])] co).result
      = Except.error e := by
    simp [insertCourseInfo, courseLoop, insertLoop, hc0]
  constructor
  · simp [handleGetFacilitySignups, h1, h2, h3, hs, hins, hcourse]
  · simp [handleGetFacilitySignups, h1, h2, h3, hs, hins, hcourse,
      FacilityBody.databaseMap]
    rfl

/-- Witness for the amended C2 theorem at a concrete run. -/
theorem facility_course_failure_recorded_under_error_key_witness :
    (handleGetFacilitySignups envAll
        (Except.ok (nestedEnvelope [("ITIAuthToken", "t")] "x"))
        (Except.ok { data := some [sampleSignup 5 "u", sampleSignup 6 "v"]
                     courses := some [("AgencyB", [sampleCourse])] })
        ⟨[], []⟩ (fun _ => none) (fun _ => some "boom")).1.status = 200
    ∧ (handleGetFacilitySignups envAll
        (Except.ok (nestedEnvelope [("ITIAuthToken", "t")] "x"))
        (Except.ok { data := some [sampleSignup 5 "u", sampleSignup 6 "v"]
                     courses := some [("AgencyB", [sampleCourse])] })
        ⟨[], []⟩ (fun _ => none)
        (fun _ => some "boom")).1.body.databaseMap
      = some { users := some { success := true
                               message := "Inserted/Updated 2 users"
                               count := 2 }
               courses := none
               error := some "boom" } :=
  facility_course_failure_recorded_under_error_key envAll
    (nestedEnvelope [("ITIAuthToken", "t")] "x")
    ([("ITIAuthToken", "t")], "x") (sampleSignup 5 "u") (sampleSignup 6 "v")
    "AgencyB" sampleCourse ⟨[], []⟩ (fun _ => none) (fun _ => some "boom")
    "boom" rfl rfl rfl rfl rfl rfl rfl

theorem normalizeSignup_user_id (u : SignupRecord) :
    (normalizeSignup u).user_id = u.user_id := rfl

theorem normalizeSignup_created_at (u : SignupRecord) :
    (normalizeSignup u).created_at = u.created_at := rfl

/-- C3: calling the signup upsert twice in succession with records sharing
one external user identifier (each call a single-record batch whose write
succeeds), against a store holding no row for that identifier, leaves the
store with exactly one row for it: every mutable column carries the second
call's written values (the second record after the routine's defaulting,
database.js lines 88-101) while `created_at`, which the conflict-update
list omits, retains the first call's value. -/
theorem signup_upsert_idempotent_keeps_created_at
    (t : List SignupRecord) (r1 r2 : SignupRecord)
    (hid : r2.user_id = r1.user_id)
    (hfresh : ∀ row ∈ t, row.user_id ≠ r1.user_id) :
    (insertFacilitySignups
        (insertFacilitySignups t [r1] (fun _ => none)).table [r2]
        (fun _ => none)).table
      = t ++ [{ normalizeSignup r2 with
                user_id := r1.user_id
                created_at := r1.created_at }]
    ∧ (insertFacilitySignups
        (insertFacilitySignups t [r1] (fun _ => none)).table [r2]
        (fun _ => none)).table.filter
          (fun row => row.user_id == r1.user_id)
      = [{ normalizeSignup r2 with
           user_id := r1.user_id
           created_at := r1.created_at }] := by
  have houter : (insertFacilitySignups
      (insertFacilitySignups t [r1] (fun _ => none)).table [r2]
      (fun _ => none)).table
      = signupTableUpsert (signupTableUpsert t (normalizeSignup r1))
          (normalizeSignup r2) := rfl
  have hany1 : (t.any
      fun row => row.user_id == (normalizeSignup r1).user_id) = false := by
    rw [List.any_eq_false]
    intro row hrow
    simp only [normalizeSignup_user_id, beq_iff_eq]
    exact hfresh row hrow
  have h2 : signupTableUpsert t (normalizeSignup r1)
      = t ++ [normalizeSignup r1] := by
    simp [signupTableUpsert, hany1]
  have hany2 : ((t ++ [normalizeSignup r1]).any
      fun row => row.user_id == (normalizeSignup r2).user_id) = true := by
    simp [List.any_append, normalizeSignup_user_id, hid]
  have h3 : signupTableUpsert (t ++ [normalizeSignup r1])
        (normalizeSignup r2)
      = t ++ [{ normalizeSignup r2 with
                user_id := r1.user_id
                created_at := r1.created_at }] := by
    simp [signupTableUpsert, hany2, applySignupUpdate,
      normalizeSignup_user_id, normalizeSignup_created_at, hid]
    conv_rhs => rw [← List.map_id t]
    apply List.map_congr_left
    intro row hrow
    rw [if_neg (hfresh row hrow)]
    rfl
  have hfilter_t : t.filter (fun row => row.user_id == r1.user_id) = [] := by
    rw [List.filter_eq_nil_iff]
    intro row hrow
    simp only [beq_iff_eq]
    exact hfresh row hrow
  constructor
  · rw [houter, h2, h3]
  · rw [houter, h2, h3, List.filter_append, hfilter_t]
    simp

/-- Witness for C3: two records with identifier 7 and different mutable
values, upserted into an empty store. -/
theorem signup_upsert_idempotent_keeps_created_at_witness :
    (insertFacilitySignups
        (insertFacilitySignups [] [sampleSignup 7 "first"] (fun _ => none)
          ).table [sampleSignup 7 "second"] (fun _ => none)).table
      = [] ++ [{ normalizeSignup (sampleSignup 7 "second") with
                 user_id := (sampleSignup 7 "first").user_id
                 created_at := (sampleSignup 7 "first").created_at }]
    ∧ (insertFacilitySignups
        (insertFacilitySignups [] [sampleSignup 7 "first"] (fun _ => none)
          ).table [sampleSignup 7 "second"] (fun _ => none)).table.filter
          (fun row => row.user_id == (sampleSignup 7 "first").user_id)
      = [{ normalizeSignup (sampleSignup 7 "second") with
           user_id := (sampleSignup 7 "first").user_id
           created_at := (sampleSignup 7 "first").created_at }] :=
  signup_upsert_idempotent_keeps_created_at [] (sampleSignup 7 "first")
    (sampleSignup 7 "second") rfl (by simp)

/-- C7: the upsert routines normalize missing/null optional fields before
writing, deterministically per field, and reject no record for missing
optional fields. In the signup routine the numeric fields default to 0, the
`updated_at` and `login_stamp` fields fall back to the sibling `created_at`
timestamp, and the status-like trio (`status_id`, `user_level_id`,
`admin_level_id`) defaults to the sentinel 1 (the "active" default); in the
e-learning routine numeric fields default to 0, string fields to the empty
string, and the two timestamps to the current time; a record consisting of
such defaults is still upserted and counted, never rejected. -/
theorem upsert_normalization_defaults (u : SignupRecord) (c : CodeRecord)
    (now : String) (tu : List SignupRecord) (tc : List CodeRecord)
    (hua : u.updated_at = Val.null) (huls : u.login_stamp = Val.null)
    (hu1 : u.created_user_id = Val.null) (hu2 : u.updated_user_id = Val.null)
    (hu3 : u.instance_id = Val.null) (hu4 : u.prefix_id = Val.null)
    (hu5 : u.suffix_id = Val.null) (hu6 : u.gender = Val.null)
    (hu7 : u.member_number = Val.null) (hu8 : u.region_id = Val.null)
    (hu9 : u.login_count = Val.null)
    (hs1 : u.status_id = Val.null) (hs2 : u.user_level_id = Val.null)
    (hs3 : u.admin_level_id = Val.null)
    (hc1 : c.user_id = Val.null) (hc2 : c.moodle_id = Val.null)
    (hc3 : c.status_id = Val.null) (hc4 : c.status_label = Val.null)
    (hc5 : c.created_at = Val.null) (hc6 : c.updated_at = Val.null) :
    (normalizeSignup u).updated_at = u.created_at
    ∧ (normalizeSignup u).login_stamp = u.created_at
    ∧ (normalizeSignup u).created_user_id = Val.num 0
    ∧ (normalizeSignup u).updated_user_id = Val.num 0
    ∧ (normalizeSignup u).instance_id = Val.num 0
    ∧ (normalizeSignup u).prefix_id = Val.num 0
    ∧ (normalizeSignup u).suffix_id = Val.num 0
    ∧ (normalizeSignup u).gender = Val.num 0
    ∧ (normalizeSignup u).member_number = Val.num 0
    ∧ (normalizeSignup u).region_id = Val.num 0
    ∧ (normalizeSignup u).login_count = Val.num 0
    ∧ (normalizeSignup u).status_id = Val.num 1
    ∧ (normalizeSignup u).user_level_id = Val.num 1
    ∧ (normalizeSignup u).admin_level_id = Val.num 1
    ∧ (normalizeCode now c).user_id = Val.num 0
    ∧ (normalizeCode now c).moodle_id = Val.num 0
    ∧ (normalizeCode now c).status_id = Val.num 0
    ∧ (normalizeCode now c).status_label = Val.str ""
    ∧ (normalizeCode now c).created_at = Val.str now
    ∧ (normalizeCode now c).updated_at = Val.str now
    ∧ (insertFacilitySignups tu [u] (fun _ => none)).result
      = Except.ok { success := true
                    message := "Inserted/Updated 1 users"
                    count := 1 }
    ∧ (insertElearningCodes Role.origin tc [c] now (fun _ => none)).result
      = Except.ok { success := true
                    message := "Inserted/Updated 1 e-learning codes"
                    count := 1 } := by
  have hfac : (insertFacilitySignups tu [u] (fun _ => none)).result
      = Except.ok { success := true
                    message := "Inserted/Updated 1 users"
                    count := 1 } := by
    simp [insertFacilitySignups, signupLoop, insertLoop]
    rfl
  have hcode : (insertElearningCodes Role.origin tc [c] now
        (fun _ => none)).result
      = Except.ok { success := true
                    message := "Inserted/Updated 1 e-learning codes"
                    count := 1 } := by
    simp [insertElearningCodes, codeLoop, insertLoop]
    rfl
  refine ⟨?_, ?_, ?_, ?_, ?_, ?_, ?_, ?_, ?_, ?_, ?_, ?_, ?_, ?_, ?_, ?_,
    ?_, ?_, ?_, ?_, hfac, hcode⟩
  all_goals
    simp [normalizeSignup, normalizeCode, Val.orDefault, Val.truthy,
      hua, huls, hu1, hu2, hu3, hu4, hu5, hu6, hu7, hu8, hu9,
      hs1, hs2, hs3, hc1, hc2, hc3, hc4, hc5, hc6]

/-- Witness for C7 at the records with all optional fields null. -/
theorem upsert_normalization_defaults_witness :
    (normalizeSignup nullishSignup).updated_at = nullishSignup.created_at
    ∧ (normalizeSignup nullishSignup).login_stamp = nullishSignup.created_at
    ∧ (normalizeSignup nullishSignup).created_user_id = Val.num 0
    ∧ (normalizeSignup nullishSignup).updated_user_id = Val.num 0
    ∧ (normalizeSignup nullishSignup).instance_id = Val.num 0
    ∧ (normalizeSignup nullishSignup).prefix_id = Val.num 0
    ∧ (normalizeSignup nullishSignup).suffix_id = Val.num 0
    ∧ (normalizeSignup nullishSignup).gender = Val.num 0
    ∧ (normalizeSignup nullishSignup).member_number = Val.num 0
    ∧ (normalizeSignup nullishSignup).region_id = Val.num 0
    ∧ (normalizeSignup nullishSignup).login_count = Val.num 0
    ∧ (normalizeSignup nullishSignup).status_id = Val.num 1
    ∧ (normalizeSignup nullishSignup).user_level_id = Val.num 1
    ∧ (normalizeSignup nullishSignup).admin_level_id = Val.num 1
    ∧ (normalizeCode "2025-01-01" nullishCode).user_id = Val.num 0
    ∧ (normalizeCode "2025-01-01" nullishCode).moodle_id = Val.num 0
    ∧ (normalizeCode "2025-01-01" nullishCode).status_id = Val.num 0
    ∧ (normalizeCode "2025-01-01" nullishCode).status_label = Val.str ""
    ∧ (normalizeCode "2025-01-01" nullishCode).created_at
      = Val.str "2025-01-01"
    ∧ (normalizeCode "2025-01-01" nullishCode).updated_at
      = Val.str "2025-01-01"
    ∧ (insertFacilitySignups [] [nullishSignup] (fun _ => none)).result
      = Except.ok { success := true
                    message := "Inserted/Updated 1 users"
                    count := 1 }
    ∧ (insertElearningCodes Role.origin [] [nullishCode] "2025-01-01"
        (fun _ => none)).result
      = Except.ok { success := true
                    message := "Inserted/Updated 1 e-learning codes"
                    count := 1 } :=
  upsert_normalization_defaults nullishSignup nullishCode "2025-01-01" [] []
    rfl rfl rfl rfl rfl rfl rfl rfl rfl rfl rfl rfl rfl rfl rfl rfl rfl rfl
    rfl rfl

end NodeWebhooks
